import Mathlib

/-!
# Verification of the particle simulation core of `src/index.tsx`

Shallow embedding of the gesture-controlled particle field application.
JavaScript numbers are modelled as real numbers; `Math.random()` draws are
modelled as explicit real-valued streams whose values the caller constrains
to `[0, 1)` where a claim needs it.  The MediaPipe `onResults` callback can
throw a `TypeError` when a landmark index is missing (reading a property of
`undefined`); that outcome is modelled as `Option.none`.
-/

noncomputable section

namespace Heart

open Real

/-- Configuration constant `PARTICLE_COUNT = 4000` (src/index.tsx line 15). -/
def PARTICLE_COUNT : ℕ := 4000

/-- `Math.cbrt`, the real cube root, defined for all reals (odd function). -/
def cbrt (x : ℝ) : ℝ := Real.sign x * |x| ^ ((1 : ℝ) / 3)

/-- One iteration of the loop body of `generateShape` (src/index.tsx lines
22–75): the point written for one particle slot, given the stream `rnd` of
`Math.random()` draws made during that iteration (`rnd 0` is the first draw,
`rnd 1` the second, and so on, in source order; in the `heart` branch the
second draw `u` is made but never used, which the embedding reproduces by
consuming index `1` for nothing).  Unknown shape identifiers fall through
to the all-zero point. -/
def shapePoint (type : String) (rnd : ℕ → ℝ) : ℝ × ℝ × ℝ :=
  if type = "heart" then
    let t := rnd 0 * π * 2
    let _u := rnd 1 * π
    let hx := 16 * Real.sin t ^ 3
    let hy := 13 * Real.cos t - 5 * Real.cos (2 * t) - 2 * Real.cos (3 * t) - Real.cos (4 * t)
    let scale := 0.25
    let x := hx * scale
    let y := hy * scale
    let z := (rnd 2 - 0.5) * 5 * Real.sin t
    let dist := rnd 3
    (x * dist, y * dist, z * dist)
  else if type = "flower" then
    let theta := rnd 0 * π * 2
    let phi := rnd 1 * π
    let r := 3 * Real.cos (4 * theta) + 1
    let x := r * Real.sin phi * Real.cos theta
    let y := r * Real.cos phi
    let z := r * Real.sin phi * Real.sin theta
    (x, y * 0.5, z)
  else if type = "fireworks" then
    let r := 4 * cbrt (rnd 0)
    let theta := rnd 1 * 2 * π
    let phi := Real.arccos (2 * rnd 2 - 1)
    (r * Real.sin phi * Real.cos theta, r * Real.sin phi * Real.sin theta, r * Real.cos phi)
  else (0, 0, 0)

/-- `generateShape(type, count)` (src/index.tsx lines 19–78): the flat
`Float32Array` of `count * 3` components, interleaved x,y,z.  `rnd i j` is
the `j`-th `Math.random()` draw of iteration `i`. -/
def generateShape (type : String) (count : ℕ) (rnd : ℕ → ℕ → ℝ) : List ℝ :=
  (List.range count).flatMap fun i =>
    let p := shapePoint type (rnd i)
    [p.1, p.2.1, p.2.2]

/-- The breathing scalar `targetScale = 0.2 + gestureFactor * 0.8`
(src/index.tsx line 165). -/
def targetScale (g : ℝ) : ℝ := 0.2 + g * 0.8

/-- The explosion scalar `explosionFactor = 0.5 + gestureFactor * 2.5`
(src/index.tsx line 179). -/
def explosionFactor (g : ℝ) : ℝ := 0.5 + g * 2.5

/-- The per-particle target computation of one `animate` tick
(src/index.tsx lines 168–198), before the position lerp: shape-dependent
scaling (fireworks additionally rotate the (x,z) pair by `time * 0.2`),
then the index-phased jitter on x and y. -/
def animateTarget (shape : String) (g time : ℝ) (i : ℕ) (p : ℝ × ℝ × ℝ) : ℝ × ℝ × ℝ :=
  let tx := p.1
  let ty := p.2.1
  let tz := p.2.2
  let q : ℝ × ℝ × ℝ :=
    if shape = "fireworks" then
      let e := explosionFactor g
      let tx := tx * e
      let ty := ty * e
      let tz := tz * e
      let rotSpeed := 0.2
      let x := tx * Real.cos (time * rotSpeed) - tz * Real.sin (time * rotSpeed)
      let z := tx * Real.sin (time * rotSpeed) + tz * Real.cos (time * rotSpeed)
      (x, ty, z)
    else
      (tx * targetScale g, ty * targetScale g, tz * targetScale g)
  (q.1 + Real.sin (time * 2 + i) * 0.05, q.2.1 + Real.cos (time * 1.5 + i) * 0.05, q.2.2)

/-- One position-smoothing step, per coordinate:
`positions[i] += (t - positions[i]) * 0.08` (src/index.tsx lines 201–203). -/
def lerpStep (target live : ℝ) : ℝ := live + (target - live) * 0.08

/-- The live coordinate after `k` ticks of `lerpStep` with a fixed target. -/
def lerpIter (target live0 : ℝ) : ℕ → ℝ
  | 0 => live0
  | k + 1 => lerpStep target (lerpIter target live0 k)

/-- The raw openness factor computed in the detected branch of `onResults`
(src/index.tsx lines 239–240): affine normalization of the thumb–index
distance, clamped to [0,1] by `Math.max(0, Math.min(1, factor))`. -/
def rawFactor (dist : ℝ) : ℝ := max 0 (min 1 ((dist - 0.03) / 0.15))

/-- The detected-branch gesture smoothing (src/index.tsx line 243):
`gestureFactor += (factor - gestureFactor) * 0.2` with `factor` the clamped
raw value for the given distance. -/
def detectedUpdate (g dist : ℝ) : ℝ := g + (rawFactor dist - g) * 0.2

/-- The idle "auto breathe" target (src/index.tsx line 254):
`(Math.sin(time * 2) + 1) / 2` with `time = Date.now() / 1000` in seconds. -/
def autoFactor (t : ℝ) : ℝ := (Real.sin (t * 2) + 1) / 2

/-- The not-detected-branch gesture smoothing (src/index.tsx line 255):
`gestureFactor += (autoFactor - gestureFactor) * 0.05`. -/
def idleUpdate (g t : ℝ) : ℝ := g + (autoFactor t - g) * 0.05

/-- One gesture-state update event: either a detected frame carrying the
thumb–index distance fed to the normalizer, or an idle (no-hand) frame
carrying the wall-clock time in seconds. -/
inductive GestureEvent : Type
  | detected (dist : ℝ)
  | idle (t : ℝ)

/-- Apply one gesture event to the stored `gestureFactor`. -/
def applyEvent (g : ℝ) : GestureEvent → ℝ
  | .detected dist => detectedUpdate g dist
  | .idle t => idleUpdate g t

/-- Apply a finite sequence of gesture events in order. -/
def applyEvents (g : ℝ) (evs : List GestureEvent) : ℝ := evs.foldl applyEvent g

/-- A hand landmark: one normalized 3D point (`thumb.x` etc.). -/
structure Landmark where
  x : ℝ
  y : ℝ
  z : ℝ

/-- Euclidean distance between two landmarks (src/index.tsx lines 232–236). -/
def landmarkDist (a b : Landmark) : ℝ :=
  Real.sqrt ((a.x - b.x) ^ 2 + (a.y - b.y) ^ 2 + (a.z - b.z) ^ 2)

/-- `handStatus` values (src/index.tsx line 83). -/
inductive HandStatus : Type
  | detected
  | searching
deriving DecidableEq

/-- The gesture-side mutable state touched by `onResults`:
`stateRef.current.gestureFactor`, the React `handStatus` state, and the
React `gestureValue` state surfaced to the UI. -/
structure GState where
  gestureFactor : ℝ
  handStatus : HandStatus
  gestureValue : ℝ

/-- Initial gesture-side state: `gestureFactor: 1.0` (src/index.tsx line 93),
`handStatus` starts `'searching'` (line 83), `gestureValue` starts `0`
(line 84). -/
def initGState : GState := { gestureFactor := 1.0, handStatus := .searching, gestureValue := 0 }

/-- The payload of a MediaPipe result: the (possibly empty) list of hands,
each a list of landmarks.  An absent `multiHandLandmarks` field behaves like
the empty list in the truthiness test of line 225. -/
structure HandsResults where
  multiHandLandmarks : List (List Landmark)

/-- The `onResults` callback (src/index.tsx lines 224–257).
`capturedGestureValue` is the value of the React `gestureValue` binding that
the callback closed over: the enclosing `useEffect` runs once (empty
dependency array, line 305), so this is the first render's value `0` for the
whole life of the program, regardless of later `setGestureValue` calls.
`now` is `Date.now() / 1000`.  `none` models the `TypeError` thrown when
`landmarks[4]` or `landmarks[8]` is `undefined` and `.x` is read from it. -/
def onResults (capturedGestureValue now : ℝ) (s : GState) (results : HandsResults) :
    Option GState :=
  match results.multiHandLandmarks with
  | lms :: _ =>
    match lms[4]?, lms[8]? with
    | some thumb, some index =>
      let dist := landmarkDist thumb index
      let factor := rawFactor dist
      some { gestureFactor := detectedUpdate s.gestureFactor dist,
             handStatus := .detected,
             gestureValue :=
               if |factor - capturedGestureValue| > 0.05 then factor else s.gestureValue }
    | _, _ => none
  | [] =>
    some { gestureFactor := idleUpdate s.gestureFactor now,
           handStatus := .searching,
           gestureValue := s.gestureValue }

/-- The initial `stateRef.current` (src/index.tsx lines 90–95): shape
`'heart'`, target positions freshly generated, `gestureFactor` 1.0.
(The `color` field is an external `THREE.Color`, out of the model.) -/
structure StateRefModel where
  shape : String
  targetPositions : List ℝ
  gestureFactor : ℝ

/-- `stateRef`'s initial value (src/index.tsx lines 90–95), parametric in
the random stream consumed by the initial `generateShape` call. -/
def initialStateRef (rnd : ℕ → ℕ → ℝ) : StateRefModel :=
  { shape := "heart",
    targetPositions := generateShape "heart" PARTICLE_COUNT rnd,
    gestureFactor := 1.0 }

/-! ## Helper lemmas -/

/-- The error of the smoothed coordinate contracts by `0.92` per tick. -/
theorem lerpIter_sub (target live0 : ℝ) (k : ℕ) :
    lerpIter target live0 k - target = (live0 - target) * 0.92 ^ k := by
  induction k with
  | zero => simp [lerpIter]
  | succ k ih =>
    have h : lerpIter target live0 (k + 1) = lerpStep target (lerpIter target live0 k) := rfl
    rw [h, lerpStep, pow_succ]
    linear_combination (0.92 : ℝ) * ih

/-- The clamped raw openness value lies in `[0, 1]`. -/
theorem rawFactor_mem (d : ℝ) : rawFactor d ∈ Set.Icc (0 : ℝ) 1 :=
  ⟨le_max_left 0 _, max_le (by norm_num) (min_le_left 1 _)⟩

/-- The idle breathing target lies in `[0, 1]`. -/
theorem autoFactor_mem (t : ℝ) : autoFactor t ∈ Set.Icc (0 : ℝ) 1 := by
  have h1 := Real.neg_one_le_sin (t * 2)
  have h2 := Real.sin_le_one (t * 2)
  constructor <;> · simp only [autoFactor]; linarith

/-- Exponential smoothing with weight in `[0, 1]` keeps the value in `[0, 1]`
whenever the target is in `[0, 1]`. -/
theorem smooth_mem {g f w : ℝ} (hg : g ∈ Set.Icc (0 : ℝ) 1) (hf : f ∈ Set.Icc (0 : ℝ) 1)
    (hw0 : 0 ≤ w) (hw1 : w ≤ 1) : g + (f - g) * w ∈ Set.Icc (0 : ℝ) 1 := by
  obtain ⟨hg0, hg1⟩ := hg
  obtain ⟨hf0, hf1⟩ := hf
  constructor <;> nlinarith

/-- One gesture event preserves membership of `gestureFactor` in `[0, 1]`. -/
theorem applyEvent_mem {g : ℝ} (hg : g ∈ Set.Icc (0 : ℝ) 1) (e : GestureEvent) :
    applyEvent g e ∈ Set.Icc (0 : ℝ) 1 := by
  cases e with
  | detected dist =>
    simpa only [applyEvent, detectedUpdate] using
      smooth_mem hg (rawFactor_mem dist) (by norm_num) (by norm_num)
  | idle t =>
    simpa only [applyEvent, idleUpdate] using
      smooth_mem hg (autoFactor_mem t) (by norm_num) (by norm_num)

/-- Any finite event sequence preserves membership in `[0, 1]`. -/
theorem applyEvents_mem : ∀ (evs : List GestureEvent) {g : ℝ}, g ∈ Set.Icc (0 : ℝ) 1 →
    applyEvents g evs ∈ Set.Icc (0 : ℝ) 1 := by
  intro evs
  induction evs with
  | nil => intro g hg; simpa [applyEvents] using hg
  | cons e evs ih =>
    intro g hg
    simpa [applyEvents, List.foldl_cons] using ih (applyEvent_mem hg e)

/-- Reduction of `onResults` in the detected branch when both the thumb-tip
(index 4) and index-fingertip (index 8) landmarks are present. -/
theorem onResults_cons_eq (cap now : ℝ) (s : GState) (lms : List Landmark)
    (rest : List (List Landmark)) (thumb fingertip : Landmark)
    (h4 : lms[4]? = some thumb) (h8 : lms[8]? = some fingertip) :
    onResults cap now s ⟨lms :: rest⟩ =
      some { gestureFactor := detectedUpdate s.gestureFactor (landmarkDist thumb fingertip),
             handStatus := .detected,
             gestureValue :=
               if |rawFactor (landmarkDist thumb fingertip) - cap| > 0.05 then
                 rawFactor (landmarkDist thumb fingertip)
               else s.gestureValue } := by
  simp [onResults, h4, h8]

/-- `Math.cbrt` maps `[0, 1)` into `[0, 1]`. -/
theorem cbrt_mem_of_unit {u : ℝ} (h0 : 0 ≤ u) (h1 : u < 1) : 0 ≤ cbrt u ∧ cbrt u ≤ 1 := by
  rcases eq_or_lt_of_le h0 with h | h
  · rw [cbrt, ← h, Real.sign_zero, zero_mul]
    norm_num
  · rw [cbrt, Real.sign_of_pos h, abs_of_pos h, one_mul]
    exact ⟨Real.rpow_nonneg h0 _, Real.rpow_le_one h0 (le_of_lt h1) (by norm_num)⟩

/-- Distance between a landmark on the x-axis and the origin landmark. -/
theorem landmarkDist_axis {d : ℝ} (hd : 0 ≤ d) :
    landmarkDist ⟨d, 0, 0⟩ ⟨0, 0, 0⟩ = d := by
  have h : (d - 0) ^ 2 + ((0 : ℝ) - 0) ^ 2 + ((0 : ℝ) - 0) ^ 2 = d ^ 2 := by ring
  rw [landmarkDist]
  rw [show ((⟨d, 0, 0⟩ : Landmark).x - (⟨0, 0, 0⟩ : Landmark).x) ^ 2 +
        ((⟨d, 0, 0⟩ : Landmark).y - (⟨0, 0, 0⟩ : Landmark).y) ^ 2 +
        ((⟨d, 0, 0⟩ : Landmark).z - (⟨0, 0, 0⟩ : Landmark).z) ^ 2 = d ^ 2 from h]
  exact Real.sqrt_sq hd

/-- Auxiliary length computation for the flat interleaved point list. -/
theorem length_flatMap_triple (l : List ℕ) (f : ℕ → ℝ × ℝ × ℝ) :
    (l.flatMap fun i => [(f i).1, (f i).2.1, (f i).2.2]).length = l.length * 3 := by
  induction l with
  | nil => simp
  | cons a l ih => simp [List.flatMap_cons, ih]; ring

/-- A detected frame whose 9 landmarks put the thumb tip (index 4) at
distance `d` along the x-axis from the index fingertip (index 8) at the
origin. -/
def ninePoints (d : ℝ) : List Landmark :=
  [⟨0, 0, 0⟩, ⟨0, 0, 0⟩, ⟨0, 0, 0⟩, ⟨0, 0, 0⟩, ⟨d, 0, 0⟩,
   ⟨0, 0, 0⟩, ⟨0, 0, 0⟩, ⟨0, 0, 0⟩, ⟨0, 0, 0⟩]

/-- A one-hand MediaPipe result built from `ninePoints`. -/
def pinchFrame (d : ℝ) : HandsResults := ⟨[ninePoints d]⟩

/-! ## Claim theorems -/

/-- C10: at initialization (before any perception frame or idle update) the
stored `gestureFactor` is exactly `1.0`, so the breathing scalar starts at
`1.0` and the explosion scalar at `3.0`. -/
theorem initial_gestureFactor_fully_open (rnd : ℕ → ℕ → ℝ) :
    (initialStateRef rnd).gestureFactor = 1 ∧
    targetScale (initialStateRef rnd).gestureFactor = 1 ∧
    explosionFactor (initialStateRef rnd).gestureFactor = 3 := by
  refine ⟨by norm_num [initialStateRef], ?_, ?_⟩ <;>
    norm_num [initialStateRef, targetScale, explosionFactor]

/-- C4: each live coordinate is updated per tick by
`live += 0.08 * (target - live)`; for a fixed target over `k` ticks the
error satisfies `|live_k - target| = |live_0 - target| * 0.92 ^ k`, is
monotonically non-increasing, and after 50 ticks the residual error is at
most 2% of the initial error. -/
theorem lerp_convergence (target live0 : ℝ) (k : ℕ) :
    |lerpIter target live0 k - target| = |live0 - target| * 0.92 ^ k ∧
    |lerpIter target live0 (k + 1) - target| ≤ |lerpIter target live0 k - target| ∧
    |lerpIter target live0 50 - target| ≤ 0.02 * |live0 - target| := by
  have key : ∀ m, |lerpIter target live0 m - target| = |live0 - target| * 0.92 ^ m := by
    intro m
    rw [lerpIter_sub, abs_mul, abs_pow, abs_of_nonneg (by norm_num : (0 : ℝ) ≤ 0.92)]
  refine ⟨key k, ?_, ?_⟩
  · rw [key k, key (k + 1), pow_succ]
    have h0 : (0 : ℝ) ≤ |live0 - target| * 0.92 ^ k := by positivity
    nlinarith
  · rw [key 50]
    have h50 : (0.92 : ℝ) ^ 50 ≤ 0.02 := by norm_num
    have habs := abs_nonneg (live0 - target)
    nlinarith

/-- C2: after any finite sequence of gesture updates — detected-branch
updates with arbitrary raw distances (negative or out-of-range included)
interleaved with idle-breathing updates — the stored `gestureFactor`,
started from its initial value `1.0`, is always in `[0, 1]`. -/
theorem gestureFactor_always_in_unit (rnd : ℕ → ℕ → ℝ) (evs : List GestureEvent) :
    applyEvents (initialStateRef rnd).gestureFactor evs ∈ Set.Icc (0 : ℝ) 1 := by
  apply applyEvents_mem
  constructor <;> norm_num [initialStateRef]

/-- C1: on every tick the per-particle target, before smoothing, is: for
`fireworks`, the generated point scaled by `0.5 + g*2.5` with the (x,z)
pair then rotated about the vertical axis by `time * 0.2` via the standard
2D rotation matrix; otherwise the point uniformly scaled by `0.2 + g*0.8`;
in both cases jitter `0.05*sin(2*time + i)` is added to x and
`0.05*cos(1.5*time + i)` to y. -/
theorem animateTarget_formula (shape : String) (g t : ℝ) (i : ℕ) (tx ty tz : ℝ) :
    (shape = "fireworks" →
      animateTarget shape g t i (tx, ty, tz) =
        (((0.5 + g * 2.5) * tx) * Real.cos (t * 0.2) -
            ((0.5 + g * 2.5) * tz) * Real.sin (t * 0.2) + 0.05 * Real.sin (2 * t + i),
          (0.5 + g * 2.5) * ty + 0.05 * Real.cos (1.5 * t + i),
          ((0.5 + g * 2.5) * tx) * Real.sin (t * 0.2) +
            ((0.5 + g * 2.5) * tz) * Real.cos (t * 0.2))) ∧
    (shape ≠ "fireworks" →
      animateTarget shape g t i (tx, ty, tz) =
        ((0.2 + g * 0.8) * tx + 0.05 * Real.sin (2 * t + i),
          (0.2 + g * 0.8) * ty + 0.05 * Real.cos (1.5 * t + i),
          (0.2 + g * 0.8) * tz)) := by
  constructor
  · intro h
    subst h
    simp only [animateTarget, explosionFactor, if_pos, Prod.mk.injEq]
    norm_num [Prod.mk.injEq]
    refine ⟨by ring_nf, by ring_nf, by ring_nf⟩
  · intro h
    simp only [animateTarget, targetScale, if_neg h, Prod.mk.injEq]
    refine ⟨by ring_nf, by ring_nf, by ring_nf⟩

/-- Witness for C1: both branches of the formula at concrete inputs. -/
theorem animateTarget_formula_check :
    (animateTarget "fireworks" 1 0 0 (1, 1, 1) =
      (((0.5 + 1 * 2.5) * 1) * Real.cos (0 * 0.2) -
          ((0.5 + 1 * 2.5) * 1) * Real.sin (0 * 0.2) + 0.05 * Real.sin (2 * 0 + (0 : ℕ)),
        (0.5 + 1 * 2.5) * 1 + 0.05 * Real.cos (1.5 * 0 + (0 : ℕ)),
        ((0.5 + 1 * 2.5) * 1) * Real.sin (0 * 0.2) +
          ((0.5 + 1 * 2.5) * 1) * Real.cos (0 * 0.2))) ∧
    (animateTarget "heart" 1 0 0 (1, 1, 1) =
      ((0.2 + 1 * 0.8) * 1 + 0.05 * Real.sin (2 * 0 + (0 : ℕ)),
        (0.2 + 1 * 0.8) * 1 + 0.05 * Real.cos (1.5 * 0 + (0 : ℕ)),
        (0.2 + 1 * 0.8) * 1)) :=
  ⟨(animateTarget_formula "fireworks" 1 0 0 1 1 1).1 rfl,
   (animateTarget_formula "heart" 1 0 0 1 1 1).2 (by decide)⟩

/-- C3: on a detected-branch update with both landmarks present, the new
state has `handStatus = detected` and
`gestureFactor = old + 0.2 * (clamp01 ((dist - 0.03) / 0.15) - old)`,
where `dist` is the Euclidean distance between landmark 4 and landmark 8. -/
theorem onResults_detected_branch (cap now : ℝ) (s : GState) (lms : List Landmark)
    (rest : List (List Landmark)) (thumb fingertip : Landmark)
    (h4 : lms[4]? = some thumb) (h8 : lms[8]? = some fingertip) :
    ∃ s', onResults cap now s ⟨lms :: rest⟩ = some s' ∧
      s'.handStatus = .detected ∧
      s'.gestureFactor = s.gestureFactor +
        0.2 * (max 0 (min 1 ((Real.sqrt ((thumb.x - fingertip.x) ^ 2 +
          (thumb.y - fingertip.y) ^ 2 + (thumb.z - fingertip.z) ^ 2) - 0.03) / 0.15)) -
          s.gestureFactor) := by
  refine ⟨_, onResults_cons_eq cap now s lms rest thumb fingertip h4 h8, rfl, ?_⟩
  simp only [detectedUpdate, rawFactor, landmarkDist]
  ring

/-- Witness for C3: a concrete nine-landmark frame with the thumb tip at
distance 0.105 from the index fingertip. -/
theorem onResults_detected_branch_check :
    ∃ s', onResults 0 0 initGState ⟨[ninePoints 0.105]⟩ = some s' ∧
      s'.handStatus = .detected ∧
      s'.gestureFactor = initGState.gestureFactor +
        0.2 * (max 0 (min 1 ((Real.sqrt (((0.105 : ℝ) - 0) ^ 2 + ((0 : ℝ) - 0) ^ 2 +
          ((0 : ℝ) - 0) ^ 2) - 0.03) / 0.15)) - initGState.gestureFactor) :=
  onResults_detected_branch 0 0 initGState (ninePoints 0.105) [] ⟨0.105, 0, 0⟩ ⟨0, 0, 0⟩ rfl rfl

/-- C5: `generateShape` returns exactly `count` points (`count * 3` flat
components) for every shape identifier and count, and an unrecognized shape
identifier yields all-zero points (a fallback, not a failure).  In this
real-number embedding every produced component is a well-defined real, the
analogue of the no-NaN/Infinity condition. -/
theorem generateShape_count_and_fallback (type : String) (count : ℕ) (rnd : ℕ → ℕ → ℝ) :
    (generateShape type count rnd).length = count * 3 ∧
    (type ≠ "heart" → type ≠ "flower" → type ≠ "fireworks" →
      ∀ c ∈ generateShape type count rnd, c = 0) := by
  constructor
  · simpa [generateShape] using
      length_flatMap_triple (List.range count) fun i => shapePoint type (rnd i)
  · intro h1 h2 h3 c hc
    simp only [generateShape, List.mem_flatMap] at hc
    obtain ⟨i, _, hmem⟩ := hc
    simp only [shapePoint, if_neg h1, if_neg h2, if_neg h3] at hmem
    simpa using hmem

/-- Witness for C5: an unknown shape identifier with one particle. -/
theorem generateShape_count_and_fallback_check :
    (generateShape "blob" 1 fun _ _ => 0.5).length = 1 * 3 ∧
    ∀ c ∈ generateShape "blob" 1 fun _ _ => 0.5, c = 0 :=
  ⟨(generateShape_count_and_fallback "blob" 1 fun _ _ => 0.5).1,
   (generateShape_count_and_fallback "blob" 1 fun _ _ => 0.5).2
     (by decide) (by decide) (by decide)⟩

/-- C6: every `fireworks` point lies within Euclidean distance 4 of the
origin, because the radial value is `4 * cbrt(u)` with `u ∈ [0,1)` and the
spherical-to-Cartesian conversion preserves that radius. -/
theorem fireworks_within_radius (rnd : ℕ → ℝ) (h : ∀ j, 0 ≤ rnd j ∧ rnd j < 1) :
    Real.sqrt ((shapePoint "fireworks" rnd).1 ^ 2 + (shapePoint "fireworks" rnd).2.1 ^ 2 +
      (shapePoint "fireworks" rnd).2.2 ^ 2) ≤ 4 := by
  obtain ⟨hc0, hc1⟩ := cbrt_mem_of_unit (h 0).1 (h 0).2
  have hx : (shapePoint "fireworks" rnd).1 =
      4 * cbrt (rnd 0) * Real.sin (Real.arccos (2 * rnd 2 - 1)) * Real.cos (rnd 1 * 2 * Real.pi) := by
    simp [shapePoint]
  have hy : (shapePoint "fireworks" rnd).2.1 =
      4 * cbrt (rnd 0) * Real.sin (Real.arccos (2 * rnd 2 - 1)) * Real.sin (rnd 1 * 2 * Real.pi) := by
    simp [shapePoint]
  have hz : (shapePoint "fireworks" rnd).2.2 =
      4 * cbrt (rnd 0) * Real.cos (Real.arccos (2 * rnd 2 - 1)) := by
    simp [shapePoint]
  rw [hx, hy, hz]
  have hθ := Real.sin_sq_add_cos_sq (rnd 1 * 2 * Real.pi)
  have hφ := Real.sin_sq_add_cos_sq (Real.arccos (2 * rnd 2 - 1))
  have hr0 : (0 : ℝ) ≤ 4 * cbrt (rnd 0) := by linarith
  have hsq : (4 * cbrt (rnd 0) * Real.sin (Real.arccos (2 * rnd 2 - 1)) *
        Real.cos (rnd 1 * 2 * Real.pi)) ^ 2 +
      (4 * cbrt (rnd 0) * Real.sin (Real.arccos (2 * rnd 2 - 1)) *
        Real.sin (rnd 1 * 2 * Real.pi)) ^ 2 +
      (4 * cbrt (rnd 0) * Real.cos (Real.arccos (2 * rnd 2 - 1))) ^ 2 =
      (4 * cbrt (rnd 0)) ^ 2 := by
    linear_combination ((4 * cbrt (rnd 0)) ^ 2 *
      Real.sin (Real.arccos (2 * rnd 2 - 1)) ^ 2) * hθ + (4 * cbrt (rnd 0)) ^ 2 * hφ
  rw [hsq, Real.sqrt_sq hr0]
  linarith

/-- Witness for C6: the constant-1/2 random stream. -/
theorem fireworks_within_radius_check :
    Real.sqrt ((shapePoint "fireworks" fun _ => 0.5).1 ^ 2 +
      (shapePoint "fireworks" fun _ => 0.5).2.1 ^ 2 +
      (shapePoint "fireworks" fun _ => 0.5).2.2 ^ 2) ≤ 4 :=
  fireworks_within_radius (fun _ => 0.5) fun _ => by norm_num

/-- C7: on a no-hand callback, `handStatus` becomes `searching` and
`gestureFactor` becomes `old + 0.05 * (auto - old)` with
`auto = (sin(2*t) + 1) / 2` a wall-clock sinusoid mapped into `[0, 1]`;
the UI value is untouched. -/
theorem onResults_searching_branch (cap now : ℝ) (s : GState) :
    ∃ s', onResults cap now s ⟨[]⟩ = some s' ∧
      s'.handStatus = .searching ∧
      s'.gestureFactor = s.gestureFactor +
        0.05 * ((Real.sin (2 * now) + 1) / 2 - s.gestureFactor) ∧
      (Real.sin (2 * now) + 1) / 2 ∈ Set.Icc (0 : ℝ) 1 ∧
      s'.gestureValue = s.gestureValue := by
  have hcomm : Real.sin (now * 2) = Real.sin (2 * now) := by ring_nf
  refine ⟨_, rfl, rfl, ?_, ?_, rfl⟩
  · show idleUpdate s.gestureFactor now = _
    rw [idleUpdate, autoFactor, hcomm]
    ring
  · have hmem := autoFactor_mem now
    rwa [autoFactor, hcomm] at hmem

/-- C8 (code bug): a detected hand whose landmark list is missing index 4
or index 8 makes `onResults` read a property of `undefined` (a thrown
`TypeError`, modelled as `none`) instead of falling into the
searching/idle branch required by the spec. -/
theorem onResults_missing_landmarks_crash (cap now : ℝ) (s : GState) :
    onResults cap now s ⟨[[]]⟩ = none := rfl

/-- C9 (code bug): the UI throttle compares the new raw factor against the
`gestureValue` binding captured when the callback was installed (the
initial `0`, since the installing effect runs exactly once), not against
the value last surfaced to the UI.  Concretely: two detected frames with
thumb–index distances 0.105 then 0.108 give raw factors 0.5 then 0.52;
the first surfaces 0.5, and the second surfaces 0.52 even though it moved
only 0.02 ≤ 0.05 since the last surfaced value. -/
theorem uiThrottle_uses_stale_capture :
    (onResults 0 0 initGState ⟨[ninePoints 0.105]⟩ =
      some { gestureFactor := 0.9, handStatus := .detected, gestureValue := 0.5 }) ∧
    (onResults 0 0 { gestureFactor := 0.9, handStatus := .detected, gestureValue := 0.5 }
        ⟨[ninePoints 0.108]⟩ =
      some { gestureFactor := 0.824, handStatus := .detected, gestureValue := 0.52 }) ∧
    |(0.52 : ℝ) - 0.5| ≤ 0.05 ∧ ((0.52 : ℝ) ≠ 0.5) := by
  have hd1 : landmarkDist ⟨0.105, 0, 0⟩ ⟨0, 0, 0⟩ = 0.105 := landmarkDist_axis (by norm_num)
  have hd2 : landmarkDist ⟨0.108, 0, 0⟩ ⟨0, 0, 0⟩ = 0.108 := landmarkDist_axis (by norm_num)
  have hr1 : rawFactor 0.105 = 0.5 := by rw [rawFactor]; norm_num [min_def, max_def]
  have hr2 : rawFactor 0.108 = 0.52 := by rw [rawFactor]; norm_num [min_def, max_def]
  have habs1 : |(0.5 : ℝ) - 0| > 0.05 := by
    rw [sub_zero, abs_of_nonneg (by norm_num : (0 : ℝ) ≤ 0.5)]
    norm_num
  have habs2 : |(0.52 : ℝ) - 0| > 0.05 := by
    rw [sub_zero, abs_of_nonneg (by norm_num : (0 : ℝ) ≤ 0.52)]
    norm_num
  refine ⟨?_, ?_, ?_, by norm_num⟩
  · rw [onResults_cons_eq 0 0 initGState (ninePoints 0.105) [] ⟨0.105, 0, 0⟩ ⟨0, 0, 0⟩ rfl rfl,
      hd1, hr1, if_pos habs1]
    simp only [initGState, detectedUpdate, hr1, Option.some.injEq, GState.mk.injEq]
    norm_num
  · rw [onResults_cons_eq 0 0 _ (ninePoints 0.108) [] ⟨0.108, 0, 0⟩ ⟨0, 0, 0⟩ rfl rfl,
      hd2, hr2, if_pos habs2]
    simp only [detectedUpdate, hr2, Option.some.injEq, GState.mk.injEq]
    norm_num
  · rw [abs_le]
    constructor <;> norm_num

end Heart

end
